import Mathlib

/-! # stash-box: the resolver layer and the edit/vote engine it hints at

Shallow embedding of `internal/api/resolver.go` together with the pieces it
relies on (the `config` accessors, `time.Duration.Seconds`, float64 rounding),
followed by a model of the edit-proposal and voting engine.

Conventions of the embedding:

* Go `int` is a 64-bit signed integer, embedded as `Int`; no arithmetic of the
  file can overflow except the float conversion, which is treated explicitly.
* A Go pointer `*T` is embedded as `Option T` (`none` is `nil`); dereferencing
  goes through `deref`, which panics on `nil`.
* The package-level configuration read by the `config` accessors is an explicit
  state of an arbitrary type `σ`; the accessors themselves are not part of
  `resolver.go` and are taken as parameters (`config.Accessors`).
* A Go function is a computation in `Go σ`: it may read the state, may panic,
  and returns its result together with the state it leaves behind.
-/

/-! ## Runtime: panics, pointers, state -/

/-- Run-time panics that the embedded code could raise. -/
inductive Panic where
  | nilDereference
  deriving DecidableEq, Repr

/-- Go computations over the configuration state `σ`. -/
abbrev Go (σ : Type) (α : Type) : Type := StateT σ (Except Panic) α

/-- Pointer dereference `*p`: panics on `nil`. -/
def deref {σ α : Type} (p : Option α) : Go σ α :=
  match p with
  | none => throw Panic.nilDereference
  | some v => pure v

/-- Call of a parameterless accessor that reads the configuration. -/
def call {σ α : Type} (f : σ → α) : Go σ α := do
  return f (← get)

/-- Go's `error` interface value: `none` is `nil`. -/
abbrev error : Type := Option String

/-! ## Package `time` and float64 arithmetic -/

namespace float64

/-- Nearest integer to `q`, ties to the even one. -/
def roundHalfEven (q : ℚ) : ℤ :=
  let f := ⌊q⌋
  let r := q - f
  if r < 1 / 2 then f
  else if 1 / 2 < r then f + 1
  else if f % 2 = 0 then f else f + 1

/-- IEEE 754 binary64 round-to-nearest-even of an exact value, for values that
are zero or of normal magnitude (53 significant bits). Every intermediate value
of `Duration.Seconds` is zero or lies between `10⁻⁹` and `2⁶³`, so neither
subnormals nor overflow arise. -/
def round (x : ℚ) : ℚ :=
  if x = 0 then 0
  else
    let e := Int.log 2 |x| - 52
    roundHalfEven (x / 2 ^ e) * 2 ^ e

/-- Conversion `float64(i)` of an integer. -/
def ofInt (i : ℤ) : ℚ := round i

/-- Float addition `a + b`. -/
def add (a b : ℚ) : ℚ := round (a + b)

/-- Float division `a / b`. -/
def div (a b : ℚ) : ℚ := round (a / b)

/-- Conversion `int(f)`: the fraction is discarded (truncation toward zero). -/
def toInt (f : ℚ) : ℤ := if 0 ≤ f then ⌊f⌋ else ⌈f⌉

end float64

namespace time

/-- A `time.Duration` is an int64 count of nanoseconds. -/
abbrev Duration : Type := ℤ

/-- The constant `time.Second`. -/
def Second : Duration := 1000000000

/-- The method `Duration.Seconds` of the standard library:
`sec := d / Second; nsec := d % Second; return float64(sec) + float64(nsec)/1e9`,
with Go's truncating integer division and remainder. -/
def Duration.Seconds (d : Duration) : ℚ :=
  let sec := Int.tdiv d Second
  let nsec := Int.tmod d Second
  float64.add (float64.ofInt sec) (float64.div (float64.ofInt nsec) (float64.round 1000000000))

end time

/-! ## Package `config` (accessors, taken as parameters) and `models` -/

namespace config

/-- The value returned by `config.GetS3Config`. -/
structure S3Config where
  Endpoint : String
  Bucket : String
  AccessKey : String
  Secret : String
  MaxDimension : Int
  deriving DecidableEq, Repr

/-- The value returned by `config.GetImageResizeConfig`. -/
structure ImageResizeConfig where
  Enabled : Bool
  CachePath : String
  MinSize : Int
  deriving DecidableEq, Repr

/-- The accessors of package `config` that `resolver.go` calls. Each reads the
current configuration `σ`. Their bodies and declared result types are not in
`resolver.go`; the result types are fixed by use where `resolver.go` shows them
(`GetFaviconPath` returns `(*string, error)`, `GetProfilerPort` returns `*int`,
the two expiry accessors return a `time.Duration`) and are plain ints, strings
and booleans elsewhere. -/
structure Accessors (σ : Type) where
  GetS3Config : σ → S3Config
  GetImageResizeConfig : σ → ImageResizeConfig
  GetTitle : σ → String
  GetHostURL : σ → String
  GetRequireInvite : σ → Bool
  GetRequireActivation : σ → Bool
  GetActivationExpiry : σ → time.Duration
  GetEmailCooldown : σ → time.Duration
  GetDefaultUserRoles : σ → List String
  GetVotePromotionThreshold : σ → Option Int
  GetVoteApplicationThreshold : σ → Int
  GetVotingPeriod : σ → Int
  GetMinDestructiveVotingPeriod : σ → Int
  GetVoteCronInterval : σ → String
  GetGuidelinesURL : σ → String
  GetEditUpdateLimit : σ → Int
  GetRequireSceneDraft : σ → Bool
  GetRequireTagRole : σ → Bool
  GetEmailHost : σ → String
  GetEmailPort : σ → Int
  GetEmailUser : σ → String
  GetEmailPassword : σ → String
  GetEmailFrom : σ → String
  GetImageLocation : σ → String
  GetImageBackend : σ → String
  GetImageJpegQuality : σ → Int
  GetImageMaxSize : σ → Option Int
  GetMaxOpenConns : σ → Int
  GetMaxIdleConns : σ → Int
  GetConnMaxLifetime : σ → Int
  GetPHashDistance : σ → Int
  GetFaviconPath : σ → Option String × error
  GetDraftTimeLimit : σ → Int
  GetProfilerPort : σ → Option Int
  GetUserLogFile : σ → String
  GetCSP : σ → String

end config

namespace models

/-- The GraphQL model `models.StashBoxConfig` filled in by `GetConfig`. A field
assigned an accessor result has the type of that result. -/
structure StashBoxConfig where
  Title : String
  HostURL : String
  RequireInvite : Bool
  RequireActivation : Bool
  ActivationExpiry : Int
  EmailCooldown : Int
  DefaultUserRoles : List String
  VotePromotionThreshold : Option Int
  VoteApplicationThreshold : Int
  VotingPeriod : Int
  MinDestructiveVotingPeriod : Int
  VoteCronInterval : String
  GuidelinesURL : String
  EditUpdateLimit : Int
  RequireSceneDraft : Bool
  RequireTagRole : Bool
  EmailHost : String
  EmailPort : Int
  EmailUser : String
  EmailPassword : String
  EmailFrom : String
  ImageLocation : String
  ImageBackend : String
  ImageJpegQuality : Int
  ImageMaxSize : Option Int
  ImageResizingEnabled : Bool
  ImageResizingCachePath : String
  ImageResizingMinSize : Option Int
  S3Endpoint : String
  S3Bucket : String
  S3AccessKey : String
  S3Secret : String
  S3MaxDimension : Option Int
  PostgresMaxOpenConns : Int
  PostgresMaxIdleConns : Int
  PostgresConnMaxLifetime : Int
  PhashDistance : Int
  FaviconPath : String
  DraftTimeLimit : Int
  ProfilerPort : Int
  UserLogFile : String
  Csp : String
  deriving DecidableEq, Repr

end models

/-! ## Package `api`: `resolver.go` -/

namespace api

/-- The struct `Resolver`: it holds the service factory. -/
structure Resolver (F : Type) where
  services : F
  deriving DecidableEq, Repr

/-- The constructor `NewResolver`. -/
def NewResolver {F : Type} (fac : F) : Resolver F :=
  { services := fac }

/-- The type `mutationResolver struct{ *Resolver }`. -/
structure mutationResolver (F : Type) where
  Resolver : Resolver F
/-- The type `editResolver`, embedding the `Resolver`. -/
structure editResolver (F : Type) where
  Resolver : Resolver F
/-- The type `editCommentResolver`, embedding the `Resolver`. -/
structure editCommentResolver (F : Type) where
  Resolver : Resolver F
/-- The type `editVoteResolver`, embedding the `Resolver`. -/
structure editVoteResolver (F : Type) where
  Resolver : Resolver F
/-- The type `performerResolver`, embedding the `Resolver`. -/
structure performerResolver (F : Type) where
  Resolver : Resolver F
/-- The type `performerEditResolver`, embedding the `Resolver`. -/
structure performerEditResolver (F : Type) where
  Resolver : Resolver F
/-- The type `studioEditResolver`, embedding the `Resolver`. -/
structure studioEditResolver (F : Type) where
  Resolver : Resolver F
/-- The type `tagEditResolver`, embedding the `Resolver`. -/
structure tagEditResolver (F : Type) where
  Resolver : Resolver F
/-- The type `sceneEditResolver`, embedding the `Resolver`. -/
structure sceneEditResolver (F : Type) where
  Resolver : Resolver F
/-- The type `tagResolver`, embedding the `Resolver`. -/
structure tagResolver (F : Type) where
  Resolver : Resolver F
/-- The type `tagCategoryResolver`, embedding the `Resolver`. -/
structure tagCategoryResolver (F : Type) where
  Resolver : Resolver F
/-- The type `imageResolver`, embedding the `Resolver`. -/
structure imageResolver (F : Type) where
  Resolver : Resolver F
/-- The type `studioResolver`, embedding the `Resolver`. -/
structure studioResolver (F : Type) where
  Resolver : Resolver F
/-- The type `sceneResolver`, embedding the `Resolver`. -/
structure sceneResolver (F : Type) where
  Resolver : Resolver F
/-- The type `siteResolver`, embedding the `Resolver`. -/
structure siteResolver (F : Type) where
  Resolver : Resolver F
/-- The type `urlResolver`, embedding the `Resolver`. -/
structure urlResolver (F : Type) where
  Resolver : Resolver F
/-- The type `userResolver`, embedding the `Resolver`. -/
structure userResolver (F : Type) where
  Resolver : Resolver F
/-- The type `queryResolver struct{ *Resolver }`. -/
structure queryResolver (F : Type) where
  Resolver : Resolver F
/-- The type `queryPerformerResolver`, embedding the `Resolver`. -/
structure queryPerformerResolver (F : Type) where
  Resolver : Resolver F
/-- The type `querySceneResolver`, embedding the `Resolver`. -/
structure querySceneResolver (F : Type) where
  Resolver : Resolver F
/-- The type `queryEditResolver`, embedding the `Resolver`. -/
structure queryEditResolver (F : Type) where
  Resolver : Resolver F
/-- The type `draftResolver`, embedding the `Resolver`. -/
structure draftResolver (F : Type) where
  Resolver : Resolver F
/-- The type `performerDraftResolver`, embedding the `Resolver`. -/
structure performerDraftResolver (F : Type) where
  Resolver : Resolver F
/-- The type `sceneDraftResolver`, embedding the `Resolver`. -/
structure sceneDraftResolver (F : Type) where
  Resolver : Resolver F
/-- The type `queryExistingSceneResolver`, embedding the `Resolver`. -/
structure queryExistingSceneResolver (F : Type) where
  Resolver : Resolver F
/-- The type `queryExistingPerformerResolver`, embedding the `Resolver`. -/
structure queryExistingPerformerResolver (F : Type) where
  Resolver : Resolver F
/-- The type `queryNotificationsResolver`, embedding the `Resolver`. -/
structure queryNotificationsResolver (F : Type) where
  Resolver : Resolver F
/-- The type `notificationResolver`, embedding the `Resolver`. -/
structure notificationResolver (F : Type) where
  Resolver : Resolver F

variable {F : Type}

/-- The accessor `Resolver.Mutation`: `&mutationResolver{r}`. -/
def Resolver.Mutation (r : Resolver F) : mutationResolver F := ⟨r⟩
/-- The accessor `Resolver.Edit`: `&editResolver{r}`. -/
def Resolver.Edit (r : Resolver F) : editResolver F := ⟨r⟩
/-- The accessor `Resolver.EditComment`: `&editCommentResolver{r}`. -/
def Resolver.EditComment (r : Resolver F) : editCommentResolver F := ⟨r⟩
/-- The accessor `Resolver.EditVote`: `&editVoteResolver{r}`. -/
def Resolver.EditVote (r : Resolver F) : editVoteResolver F := ⟨r⟩
/-- The accessor `Resolver.Performer`: `&performerResolver{r}`. -/
def Resolver.Performer (r : Resolver F) : performerResolver F := ⟨r⟩
/-- The accessor `Resolver.PerformerEdit`: `&performerEditResolver{r}`. -/
def Resolver.PerformerEdit (r : Resolver F) : performerEditResolver F := ⟨r⟩
/-- The accessor `Resolver.StudioEdit`: `&studioEditResolver{r}`. -/
def Resolver.StudioEdit (r : Resolver F) : studioEditResolver F := ⟨r⟩
/-- The accessor `Resolver.TagEdit`: `&tagEditResolver{r}`. -/
def Resolver.TagEdit (r : Resolver F) : tagEditResolver F := ⟨r⟩
/-- The accessor `Resolver.SceneEdit`: `&sceneEditResolver{r}`. -/
def Resolver.SceneEdit (r : Resolver F) : sceneEditResolver F := ⟨r⟩
/-- The accessor `Resolver.Tag`: `&tagResolver{r}`. -/
def Resolver.Tag (r : Resolver F) : tagResolver F := ⟨r⟩
/-- The accessor `Resolver.TagCategory`: `&tagCategoryResolver{r}`. -/
def Resolver.TagCategory (r : Resolver F) : tagCategoryResolver F := ⟨r⟩
/-- The accessor `Resolver.Image`: `&imageResolver{r}`. -/
def Resolver.Image (r : Resolver F) : imageResolver F := ⟨r⟩
/-- The accessor `Resolver.Studio`: `&studioResolver{r}`. -/
def Resolver.Studio (r : Resolver F) : studioResolver F := ⟨r⟩
/-- The accessor `Resolver.Scene`: `&sceneResolver{r}`. -/
def Resolver.Scene (r : Resolver F) : sceneResolver F := ⟨r⟩
/-- The accessor `Resolver.Site`: `&siteResolver{r}`. -/
def Resolver.Site (r : Resolver F) : siteResolver F := ⟨r⟩
/-- The accessor `Resolver.URL`: `&urlResolver{r}`. -/
def Resolver.URL (r : Resolver F) : urlResolver F := ⟨r⟩
/-- The accessor `Resolver.User`: `&userResolver{r}`. -/
def Resolver.User (r : Resolver F) : userResolver F := ⟨r⟩
/-- The accessor `Resolver.Query`: `&queryResolver{r}`. -/
def Resolver.Query (r : Resolver F) : queryResolver F := ⟨r⟩
/-- The accessor `Resolver.QueryPerformersResultType`: `&queryPerformerResolver{r}`. -/
def Resolver.QueryPerformersResultType (r : Resolver F) : queryPerformerResolver F := ⟨r⟩
/-- The accessor `Resolver.QueryScenesResultType`: `&querySceneResolver{r}`. -/
def Resolver.QueryScenesResultType (r : Resolver F) : querySceneResolver F := ⟨r⟩
/-- The accessor `Resolver.QueryEditsResultType`: `&queryEditResolver{r}`. -/
def Resolver.QueryEditsResultType (r : Resolver F) : queryEditResolver F := ⟨r⟩
/-- The accessor `Resolver.Draft`: `&draftResolver{r}`. -/
def Resolver.Draft (r : Resolver F) : draftResolver F := ⟨r⟩
/-- The accessor `Resolver.PerformerDraft`: `&performerDraftResolver{r}`. -/
def Resolver.PerformerDraft (r : Resolver F) : performerDraftResolver F := ⟨r⟩
/-- The accessor `Resolver.SceneDraft`: `&sceneDraftResolver{r}`. -/
def Resolver.SceneDraft (r : Resolver F) : sceneDraftResolver F := ⟨r⟩
/-- The accessor `Resolver.QueryExistingSceneResult`: `&queryExistingSceneResolver{r}`. -/
def Resolver.QueryExistingSceneResult (r : Resolver F) : queryExistingSceneResolver F := ⟨r⟩
/-- The accessor `Resolver.QueryExistingPerformerResult`: `&queryExistingPerformerResolver{r}`. -/
def Resolver.QueryExistingPerformerResult (r : Resolver F) :
    queryExistingPerformerResolver F := ⟨r⟩
/-- The accessor `Resolver.QueryNotificationsResult`: `&queryNotificationsResolver{r}`. -/
def Resolver.QueryNotificationsResult (r : Resolver F) : queryNotificationsResolver F := ⟨r⟩
/-- The accessor `Resolver.Notification`: `&notificationResolver{r}`. -/
def Resolver.Notification (r : Resolver F) : notificationResolver F := ⟨r⟩

variable {σ : Type}

/-- The helper `getFaviconPathString`: the empty string on a lookup error or a
`nil` path, the path otherwise. -/
def getFaviconPathString (cfg : config.Accessors σ) : Go σ String := do
  let (path, err) ← call cfg.GetFaviconPath
  if err ≠ none ∨ path = none then
    return ""
  deref path

/-- The helper `getProfilerPortInt`: `0` on a `nil` port, the port otherwise. -/
def getProfilerPortInt (cfg : config.Accessors σ) : Go σ Int := do
  let port ← call cfg.GetProfilerPort
  if port = none then
    return 0
  deref port

/-- The query `queryResolver.GetConfig`. The fields are evaluated in the order
of the composite literal; the result is the pair `(*StashBoxConfig, error)`.
The conversion `int(d.Seconds())` is `float64.toInt (Duration.Seconds d)`, the
conversion `string(...)` between string types is the identity, and `&x.Field`
is a non-nil pointer. -/
def queryResolver.GetConfig (cfg : config.Accessors σ) (_r : queryResolver F) :
    Go σ (Option models.StashBoxConfig × error) := do
  let s3Config ← call cfg.GetS3Config
  let imageResizeConfig ← call cfg.GetImageResizeConfig
  return (some {
    Title := (← call cfg.GetTitle)
    HostURL := (← call cfg.GetHostURL)
    RequireInvite := (← call cfg.GetRequireInvite)
    RequireActivation := (← call cfg.GetRequireActivation)
    ActivationExpiry := float64.toInt (time.Duration.Seconds (← call cfg.GetActivationExpiry))
    EmailCooldown := float64.toInt (time.Duration.Seconds (← call cfg.GetEmailCooldown))
    DefaultUserRoles := (← call cfg.GetDefaultUserRoles)
    VotePromotionThreshold := (← call cfg.GetVotePromotionThreshold)
    VoteApplicationThreshold := (← call cfg.GetVoteApplicationThreshold)
    VotingPeriod := (← call cfg.GetVotingPeriod)
    MinDestructiveVotingPeriod := (← call cfg.GetMinDestructiveVotingPeriod)
    VoteCronInterval := (← call cfg.GetVoteCronInterval)
    GuidelinesURL := (← call cfg.GetGuidelinesURL)
    EditUpdateLimit := (← call cfg.GetEditUpdateLimit)
    RequireSceneDraft := (← call cfg.GetRequireSceneDraft)
    RequireTagRole := (← call cfg.GetRequireTagRole)
    -- Email settings
    EmailHost := (← call cfg.GetEmailHost)
    EmailPort := (← call cfg.GetEmailPort)
    EmailUser := (← call cfg.GetEmailUser)
    EmailPassword := (← call cfg.GetEmailPassword)
    EmailFrom := (← call cfg.GetEmailFrom)
    -- Image settings
    ImageLocation := (← call cfg.GetImageLocation)
    ImageBackend := (← call cfg.GetImageBackend)
    ImageJpegQuality := (← call cfg.GetImageJpegQuality)
    ImageMaxSize := (← call cfg.GetImageMaxSize)
    -- Image resizing settings
    ImageResizingEnabled := imageResizeConfig.Enabled
    ImageResizingCachePath := imageResizeConfig.CachePath
    ImageResizingMinSize := some imageResizeConfig.MinSize
    -- S3 settings
    S3Endpoint := s3Config.Endpoint
    S3Bucket := s3Config.Bucket
    S3AccessKey := s3Config.AccessKey
    S3Secret := s3Config.Secret
    S3MaxDimension := some s3Config.MaxDimension
    -- Database settings
    PostgresMaxOpenConns := (← call cfg.GetMaxOpenConns)
    PostgresMaxIdleConns := (← call cfg.GetMaxIdleConns)
    PostgresConnMaxLifetime := (← call cfg.GetConnMaxLifetime)
    -- Other settings
    PhashDistance := (← call cfg.GetPHashDistance)
    FaviconPath := (← getFaviconPathString cfg)
    DraftTimeLimit := (← call cfg.GetDraftTimeLimit)
    ProfilerPort := (← getProfilerPortInt cfg)
    UserLogFile := (← call cfg.GetUserLogFile)
    Csp := (← call cfg.GetCSP) }, none)

end api

/-! ## The edit/vote engine

The engine itself (vote tally, edit state machine, resolution scheduler,
application executor) is not part of `resolver.go`. The definitions of this
section follow sections 3, 4 and 7 of the specification. Times and periods are
integers in one common unit; only the fields of an edit that resolution reads
or writes are kept. -/

namespace engine

/-- Modelled from the spec: the operation of an edit (§3), the engine itself being absent
from the sources. -/
inductive Operation where
  | create | modify | destroy | merge
  deriving DecidableEq, Repr

/-- Modelled from the spec: the status of an edit (§3). -/
inductive Status where
  | pending | accepted | rejected | applied | canceled | implemented
  deriving DecidableEq, Repr

/-- Modelled from the spec: the value of a vote (§3). -/
inductive VoteValue where
  | accept | reject
  deriving DecidableEq, Repr

/-- Modelled from the spec: a vote (§3): edit id, voter, value, cast-at. -/
structure Vote where
  editId : Nat
  voter : Nat
  value : VoteValue
  castAt : Int
  deriving DecidableEq, Repr

/-- Modelled from the spec: an edit (§3) with the fields resolution uses, and the retry
count that §7 keeps on an edit stuck at `accepted`. -/
structure Edit where
  id : Nat
  operation : Operation
  status : Status
  createdAt : Int
  retries : Nat
  deriving DecidableEq, Repr

/-- Modelled from the spec: the resolution thresholds (§3), read live at every tick. -/
structure Thresholds where
  VotePromotionThreshold : Int
  VoteApplicationThreshold : Int
  VotingPeriod : Int
  MinDestructiveVotingPeriod : Int
  VoteCronInterval : Int
  EditUpdateLimit : Nat
  deriving DecidableEq, Repr

/-- Modelled from the spec: the error kinds of §7. -/
inductive ErrorKind where
  | NotFound | Conflict | ValidationFailure | DependencyConflict | TransientStoreFailure
  deriving DecidableEq, Repr

/-- Modelled from the spec: the outcome `ok | failure` of the Application Executor (§4.4). -/
inductive ApplyResult where
  | ok
  | failure (kind : ErrorKind)
  deriving DecidableEq, Repr

/-- Modelled from the spec: the result of `tally` (§4.1). -/
structure Tally where
  score : Int
  accept_count : Nat
  reject_count : Nat
  deriving DecidableEq, Repr

/-- Modelled from the spec: one vote added to the running counts, every vote counting once. -/
def countVote (acc : Nat × Nat) (v : Vote) : Nat × Nat :=
  match v.value with
  | VoteValue.accept => (acc.1 + 1, acc.2)
  | VoteValue.reject => (acc.1, acc.2 + 1)

/-- Modelled from the spec: `tally(votes) -> score, accept_count, reject_count` with
`score = accept_count − reject_count` (§4.1). -/
def tally (votes : List Vote) : Tally :=
  let counts := votes.foldl countVote (0, 0)
  { score := (counts.1 : Int) - (counts.2 : Int)
    accept_count := counts.1
    reject_count := counts.2 }

/-- Modelled from the spec: the verdict "eligible for promotion" (§3, §4.1): the score has
reached `VotePromotionThreshold`; zero votes are never eligible. -/
def eligibleForPromotion (cfg : Thresholds) (votes : List Vote) : Bool :=
  !votes.isEmpty && decide (cfg.VotePromotionThreshold ≤ (tally votes).score)

/-- Modelled from the spec: the verdict "eligible for application" (§3, §4.1): the score has
reached `VoteApplicationThreshold`; zero votes are never eligible. -/
def eligibleForApplication (cfg : Thresholds) (votes : List Vote) : Bool :=
  !votes.isEmpty && decide (cfg.VoteApplicationThreshold ≤ (tally votes).score)

/-- Modelled from the spec: the destructive flag, derived from the operation (§3). -/
def destructive (op : Operation) : Bool :=
  match op with
  | Operation.destroy => true
  | Operation.merge => true
  | _ => false

/-- Modelled from the spec: the time an edit must stay open (§3, §4.2):
`MinDestructiveVotingPeriod` if destructive, else `VotingPeriod`. -/
def requiredPeriod (cfg : Thresholds) (op : Operation) : Int :=
  if destructive op then cfg.MinDestructiveVotingPeriod else cfg.VotingPeriod

/-- Modelled from the spec: the scheduler's evaluation of one edit (§4.2, §4.3 steps 2 and 4).
A pending edit whose period has elapsed is accepted when eligible for application and
rejected otherwise; before that it stays pending. -/
def resolveStep (cfg : Thresholds) (now : Int) (votes : List Vote) (e : Edit) : Edit :=
  if e.status = Status.pending then
    if requiredPeriod cfg e.operation ≤ now - e.createdAt then
      if eligibleForApplication cfg votes then { e with status := Status.accepted }
      else { e with status := Status.rejected }
    else e
  else e

/-- Modelled from the spec: the environment of a tick: the outcome of the Application
Executor's transaction for an edit (the Entity Store is external) and the bound on
attempts of §7. -/
structure Env where
  apply : Edit → ApplyResult
  maxAttempts : Nat

/-- Modelled from the spec: `accepted → applied` (§4.2, §7). On success the edit is applied;
on a transient store failure it stays accepted with one more retry, and is forced to
`rejected` when the attempts reach the bound; on any other failure it stays accepted. -/
def executeStep (env : Env) (e : Edit) : Edit :=
  if e.status = Status.accepted then
    match env.apply e with
    | ApplyResult.ok => { e with status := Status.applied }
    | ApplyResult.failure ErrorKind.TransientStoreFailure =>
      if env.maxAttempts ≤ e.retries + 1 then
        { e with status := Status.rejected, retries := e.retries + 1 }
      else { e with retries := e.retries + 1 }
    | ApplyResult.failure _ => e
  else e

/-- Modelled from the spec: the votes cast on one edit. -/
def votesFor (votes : List Vote) (id : Nat) : List Vote :=
  votes.filter (fun v => v.editId = id)

/-- Modelled from the spec: one tick on one edit (§4.3): evaluate it, then hand an accepted
edit to the executor within the same tick. -/
def tickEdit (env : Env) (cfg : Thresholds) (now : Int) (votes : List Vote) (e : Edit) : Edit :=
  executeStep env (resolveStep cfg now (votesFor votes e.id) e)

/-- Modelled from the spec: the scheduler running ticks on one edit. Each tick comes with the
thresholds current at that tick (they are read live, §3), its time, and the votes on record. -/
def schedule (env : Env) (ticks : List (Thresholds × Int × List Vote)) (e : Edit) : Edit :=
  ticks.foldl (fun e t => tickEdit env t.1 t.2.1 t.2.2 e) e

end engine

/-! ## Concrete inputs used to exercise the definitions -/

namespace Example

/-- The thresholds of the scenario of §8, in hours, with a week for destructive edits. -/
def thresholds : engine.Thresholds :=
  { VotePromotionThreshold := 2
    VoteApplicationThreshold := 3
    VotingPeriod := 72
    MinDestructiveVotingPeriod := 168
    VoteCronInterval := 1
    EditUpdateLimit := 1 }

/-- Four accept votes and one reject vote on edit `1`, cast within the first hour. -/
def votes : List engine.Vote :=
  [ { editId := 1, voter := 10, value := engine.VoteValue.accept, castAt := 0 },
    { editId := 1, voter := 11, value := engine.VoteValue.accept, castAt := 0 },
    { editId := 1, voter := 12, value := engine.VoteValue.reject, castAt := 0 },
    { editId := 1, voter := 13, value := engine.VoteValue.accept, castAt := 1 },
    { editId := 1, voter := 14, value := engine.VoteValue.accept, castAt := 1 } ]

/-- A pending `destroy` edit created at time `0`. -/
def destroyEdit : engine.Edit :=
  { id := 1, operation := engine.Operation.destroy, status := engine.Status.pending,
    createdAt := 0, retries := 0 }

/-- An executor whose transaction always succeeds. -/
def okEnv : engine.Env :=
  { apply := fun _ => engine.ApplyResult.ok, maxAttempts := 2 }

end Example

/-! ## Facts about the resolver layer -/

namespace api

variable {F σ : Type}

theorem call_run {α : Type} (f : σ → α) (s : σ) : (call f : Go σ α) s = Except.ok (f s, s) := rfl

theorem bind_run {α β : Type} (x : Go σ α) (f : α → Go σ β) (s s1 : σ) (a : α)
    (h : x s = Except.ok (a, s1)) : (x >>= f) s = f a s1 := by
  show (x s >>= fun p => f p.1 p.2) = f a s1
  rw [h]
  rfl

theorem modify_run (change : σ → σ) (s : σ) :
    (modify change : Go σ PUnit) s = Except.ok (PUnit.unit, change s) := rfl

theorem getProfilerPortInt_run (cfg : config.Accessors σ) (s : σ) :
    getProfilerPortInt cfg s = Except.ok ((cfg.GetProfilerPort s).getD 0, s) := by
  unfold getProfilerPortInt
  cases h : cfg.GetProfilerPort s <;>
    simp [call, deref, h, bind, StateT.bind, Except.bind, pure, StateT.pure, Except.pure, get,
      getThe, MonadStateOf.get, StateT.get]

theorem getFaviconPathString_run (cfg : config.Accessors σ) (s : σ) :
    getFaviconPathString cfg s =
      Except.ok ((match cfg.GetFaviconPath s with
        | (some p, none) => p
        | _ => ""), s) := by
  unfold getFaviconPathString
  rcases h : cfg.GetFaviconPath s with ⟨_ | p, _ | e⟩ <;>
    simp [call, deref, h, bind, StateT.bind, Except.bind, pure, StateT.pure, Except.pure, get,
      getThe, MonadStateOf.get, StateT.get]

theorem GetConfig_run (cfg : config.Accessors σ) (r : queryResolver F) (s : σ) :
    queryResolver.GetConfig cfg r s = Except.ok ((some {
      Title := cfg.GetTitle s
      HostURL := cfg.GetHostURL s
      RequireInvite := cfg.GetRequireInvite s
      RequireActivation := cfg.GetRequireActivation s
      ActivationExpiry := float64.toInt (time.Duration.Seconds (cfg.GetActivationExpiry s))
      EmailCooldown := float64.toInt (time.Duration.Seconds (cfg.GetEmailCooldown s))
      DefaultUserRoles := cfg.GetDefaultUserRoles s
      VotePromotionThreshold := cfg.GetVotePromotionThreshold s
      VoteApplicationThreshold := cfg.GetVoteApplicationThreshold s
      VotingPeriod := cfg.GetVotingPeriod s
      MinDestructiveVotingPeriod := cfg.GetMinDestructiveVotingPeriod s
      VoteCronInterval := cfg.GetVoteCronInterval s
      GuidelinesURL := cfg.GetGuidelinesURL s
      EditUpdateLimit := cfg.GetEditUpdateLimit s
      RequireSceneDraft := cfg.GetRequireSceneDraft s
      RequireTagRole := cfg.GetRequireTagRole s
      EmailHost := cfg.GetEmailHost s
      EmailPort := cfg.GetEmailPort s
      EmailUser := cfg.GetEmailUser s
      EmailPassword := cfg.GetEmailPassword s
      EmailFrom := cfg.GetEmailFrom s
      ImageLocation := cfg.GetImageLocation s
      ImageBackend := cfg.GetImageBackend s
      ImageJpegQuality := cfg.GetImageJpegQuality s
      ImageMaxSize := cfg.GetImageMaxSize s
      ImageResizingEnabled := (cfg.GetImageResizeConfig s).Enabled
      ImageResizingCachePath := (cfg.GetImageResizeConfig s).CachePath
      ImageResizingMinSize := some (cfg.GetImageResizeConfig s).MinSize
      S3Endpoint := (cfg.GetS3Config s).Endpoint
      S3Bucket := (cfg.GetS3Config s).Bucket
      S3AccessKey := (cfg.GetS3Config s).AccessKey
      S3Secret := (cfg.GetS3Config s).Secret
      S3MaxDimension := some (cfg.GetS3Config s).MaxDimension
      PostgresMaxOpenConns := cfg.GetMaxOpenConns s
      PostgresMaxIdleConns := cfg.GetMaxIdleConns s
      PostgresConnMaxLifetime := cfg.GetConnMaxLifetime s
      PhashDistance := cfg.GetPHashDistance s
      FaviconPath := (match cfg.GetFaviconPath s with
        | (some p, none) => p
        | _ => "")
      DraftTimeLimit := cfg.GetDraftTimeLimit s
      ProfilerPort := (cfg.GetProfilerPort s).getD 0
      UserLogFile := cfg.GetUserLogFile s
      Csp := cfg.GetCSP s }, none), s) := by
  unfold queryResolver.GetConfig
  simp only [bind, StateT.bind, Except.bind, call_run, getFaviconPathString_run,
    getProfilerPortInt_run, pure, StateT.pure, Except.pure]

/-- The result of `GetConfig` is the same for every resolver, and carries the voting options. -/
theorem GetConfig_fields (cfg : config.Accessors σ) (s : σ) :
    ∃ c : models.StashBoxConfig,
      (∀ r : queryResolver F, queryResolver.GetConfig cfg r s = Except.ok ((some c, none), s))
      ∧ c.VotePromotionThreshold = cfg.GetVotePromotionThreshold s
      ∧ c.VoteApplicationThreshold = cfg.GetVoteApplicationThreshold s
      ∧ c.VotingPeriod = cfg.GetVotingPeriod s
      ∧ c.MinDestructiveVotingPeriod = cfg.GetMinDestructiveVotingPeriod s
      ∧ c.VoteCronInterval = cfg.GetVoteCronInterval s
      ∧ c.EditUpdateLimit = cfg.GetEditUpdateLimit s :=
  ⟨_, fun r => GetConfig_run cfg r s, rfl, rfl, rfl, rfl, rfl, rfl⟩

end api

/-! ## Facts about float64 rounding and `Duration.Seconds` -/

namespace float64

theorem roundHalfEven_le_floor_succ (q : ℚ) : roundHalfEven q ≤ ⌊q⌋ + 1 := by
  unfold roundHalfEven
  simp only
  split_ifs <;> omega

end float64

namespace float64

end float64

namespace float64

end float64

namespace float64

end float64

namespace time

end time

namespace time

end time

/-! ## Facts about the engine -/

namespace engine

/-! ### Tally -/

theorem foldl_countVote (votes : List Vote) (a r : Nat) :
    votes.foldl countVote (a, r) =
      (a + votes.countP (fun v => v.value = VoteValue.accept),
       r + votes.countP (fun v => v.value = VoteValue.reject)) := by
  induction votes generalizing a r with
  | nil => simp
  | cons v vs ih =>
    rw [List.foldl_cons]
    cases hv : v.value <;> simp [countVote, hv, ih, List.countP_cons] <;> omega

theorem tally_eq (votes : List Vote) :
    tally votes =
      { score := (votes.countP (fun v => v.value = VoteValue.accept) : Int)
          - (votes.countP (fun v => v.value = VoteValue.reject) : Int)
        accept_count := votes.countP (fun v => v.value = VoteValue.accept)
        reject_count := votes.countP (fun v => v.value = VoteValue.reject) } := by
  unfold tally
  rw [foldl_countVote]
  simp

/-! ### Resolution -/

theorem resolveStep_accepted {cfg : Thresholds} {now : Int} {votes : List Vote} {e : Edit}
    (hp : e.status = Status.pending)
    (h : (resolveStep cfg now votes e).status = Status.accepted) :
    votes ≠ [] ∧ cfg.VoteApplicationThreshold ≤ (tally votes).score ∧
      requiredPeriod cfg e.operation ≤ now - e.createdAt := by
  unfold resolveStep at h
  rw [if_pos hp] at h
  by_cases h1 : requiredPeriod cfg e.operation ≤ now - e.createdAt
  · rw [if_pos h1] at h
    by_cases h2 : eligibleForApplication cfg votes = true
    · refine ⟨?_, ?_, h1⟩
      · intro hv; subst hv; simp [eligibleForApplication] at h2
      · simp [eligibleForApplication] at h2; exact h2.2
    · rw [if_neg h2] at h; simp at h
  · rw [if_neg h1] at h; rw [hp] at h; simp at h

theorem executeStep_of_ne_accepted {env : Env} {e : Edit} (h : e.status ≠ Status.accepted) :
    executeStep env e = e := by
  unfold executeStep
  rw [if_neg h]

/-- A tick before the floor leaves a pending destructive edit pending. -/
theorem tickEdit_before_floor {env : Env} {cfg : Thresholds} {now : Int} {votes : List Vote}
    {e : Edit} (hp : e.status = Status.pending) (hd : destructive e.operation = true)
    (ht : now < e.createdAt + cfg.MinDestructiveVotingPeriod) :
    tickEdit env cfg now votes e = e := by
  have hreq : requiredPeriod cfg e.operation = cfg.MinDestructiveVotingPeriod := by
    simp [requiredPeriod, hd]
  have h1 : resolveStep cfg now (votesFor votes e.id) e = e := by
    unfold resolveStep
    rw [if_pos hp, if_neg (by rw [hreq]; omega)]
  unfold tickEdit
  rw [h1]
  exact executeStep_of_ne_accepted (by rw [hp]; decide)

theorem schedule_before_floor {env : Env} {e : Edit}
    (hp : e.status = Status.pending) (hd : destructive e.operation = true)
    (ticks : List (Thresholds × Int × List Vote))
    (ht : ∀ t ∈ ticks, t.2.1 < e.createdAt + t.1.MinDestructiveVotingPeriod) :
    schedule env ticks e = e := by
  induction ticks with
  | nil => rfl
  | cons t ts ih =>
    unfold schedule
    rw [List.foldl_cons, tickEdit_before_floor hp hd (ht t (List.mem_cons_self _ _))]
    exact ih (fun t' ht' => ht t' (List.mem_cons_of_mem _ ht'))

end engine

namespace engine

theorem executeStep_status_cases (env : Env) (e : Edit) :
    (executeStep env e).status = e.status ∨
      (e.status = Status.accepted ∧
        ((executeStep env e).status = Status.applied ∨
          (executeStep env e).status = Status.rejected)) := by
  unfold executeStep
  by_cases h : e.status = Status.accepted
  · rw [if_pos h]
    rcases hres : env.apply e with _ | k
    · exact Or.inr ⟨h, Or.inl rfl⟩
    · cases k <;> first
        | exact Or.inl rfl
        | (simp only; split_ifs
           · exact Or.inr ⟨h, Or.inr rfl⟩
           · exact Or.inl rfl)
  · rw [if_neg h]
    exact Or.inl rfl

theorem resolveStep_status_cases (cfg : Thresholds) (now : Int) (votes : List Vote) (e : Edit) :
    (resolveStep cfg now votes e).status = e.status ∨
      (e.status = Status.pending ∧
        ((resolveStep cfg now votes e).status = Status.accepted ∨
          (resolveStep cfg now votes e).status = Status.rejected)) := by
  unfold resolveStep
  split_ifs with h1 h2 h3
  · exact Or.inr ⟨h1, Or.inl rfl⟩
  · exact Or.inr ⟨h1, Or.inr rfl⟩
  · exact Or.inl rfl
  · exact Or.inl rfl

/-- What a tick can make of a pending edit that ends accepted or applied. -/
theorem tickEdit_accepted_or_applied {env : Env} {cfg : Thresholds} {now : Int}
    {votes : List Vote} {e : Edit} (hp : e.status = Status.pending)
    (h : (tickEdit env cfg now votes e).status = Status.accepted ∨
      (tickEdit env cfg now votes e).status = Status.applied) :
    (resolveStep cfg now (votesFor votes e.id) e).status = Status.accepted := by
  unfold tickEdit at h
  rcases executeStep_status_cases env (resolveStep cfg now (votesFor votes e.id) e) with h1 | h1
  · rw [h1] at h
    rcases resolveStep_status_cases cfg now (votesFor votes e.id) e with h2 | ⟨-, h2 | h2⟩
    · rw [h2, hp] at h; simp at h
    · exact h2
    · rw [h2] at h; simp at h
  · exact h1.1

end engine

namespace engine

end engine

/-! ## The claims -/

namespace api

variable {F σ : Type}

/-- Claim C1: for every configuration, `GetConfig` returns a result whose six voting options
(`VotePromotionThreshold`, `VoteApplicationThreshold`, `VotingPeriod`,
`MinDestructiveVotingPeriod`, `VoteCronInterval`, `EditUpdateLimit`) are each equal to what the
corresponding configuration accessor returns on the configuration current at the call. -/
theorem GetConfig_voting_options (cfg : config.Accessors σ) (r : queryResolver F) (s : σ) :
    ∃ c : models.StashBoxConfig,
      queryResolver.GetConfig cfg r s = Except.ok ((some c, none), s)
      ∧ c.VotePromotionThreshold = cfg.GetVotePromotionThreshold s
      ∧ c.VoteApplicationThreshold = cfg.GetVoteApplicationThreshold s
      ∧ c.VotingPeriod = cfg.GetVotingPeriod s
      ∧ c.MinDestructiveVotingPeriod = cfg.GetMinDestructiveVotingPeriod s
      ∧ c.VoteCronInterval = cfg.GetVoteCronInterval s
      ∧ c.EditUpdateLimit = cfg.GetEditUpdateLimit s :=
  ⟨_, GetConfig_run cfg r s, rfl, rfl, rfl, rfl, rfl, rfl⟩

/-- Claim C2: `GetConfig` reads the configuration and keeps nothing. A call leaves the
configuration state unchanged; its result is the same for any two resolvers; two calls in a row
on the same configuration return equal results; and a call made after the configuration was
changed (whatever was called before) returns the threshold, period and limit values of the
changed configuration. -/
theorem GetConfig_reads_only (cfg : config.Accessors σ) (r r' : queryResolver F) (s : σ)
    (change : σ → σ) :
    ∃ c c' : models.StashBoxConfig,
      queryResolver.GetConfig cfg r s = Except.ok ((some c, none), s)
      ∧ queryResolver.GetConfig cfg r' s = Except.ok ((some c, none), s)
      ∧ (do
          let first ← queryResolver.GetConfig cfg r
          let second ← queryResolver.GetConfig cfg r'
          pure (first, second) : Go σ _) s
        = Except.ok (((some c, none), (some c, none)), s)
      ∧ (do
          let _ ← queryResolver.GetConfig cfg r
          modify change
          queryResolver.GetConfig cfg r' : Go σ _) s
        = Except.ok ((some c', none), change s)
      ∧ c'.VotePromotionThreshold = cfg.GetVotePromotionThreshold (change s)
      ∧ c'.VoteApplicationThreshold = cfg.GetVoteApplicationThreshold (change s)
      ∧ c'.VotingPeriod = cfg.GetVotingPeriod (change s)
      ∧ c'.MinDestructiveVotingPeriod = cfg.GetMinDestructiveVotingPeriod (change s)
      ∧ c'.VoteCronInterval = cfg.GetVoteCronInterval (change s)
      ∧ c'.EditUpdateLimit = cfg.GetEditUpdateLimit (change s) := by
  obtain ⟨c, hc, -⟩ := GetConfig_fields (F := F) cfg s
  obtain ⟨c', hc', h1, h2, h3, h4, h5, h6⟩ := GetConfig_fields (F := F) cfg (change s)
  refine ⟨c, c', hc r, hc r', ?_, ?_, h1, h2, h3, h4, h5, h6⟩
  · rw [bind_run _ _ s s _ (hc r), bind_run _ _ s s _ (hc r')]
    rfl
  · rw [bind_run _ _ s s _ (hc r), bind_run _ _ s (change s) _ (modify_run change s)]
    exact hc' r'

/-- Claim C7: the resolver layer is pure wiring. `NewResolver fac` holds `fac` as its services,
every sub-resolver obtained from a resolver `r` embeds `r` itself, and so every sub-resolver of
`NewResolver fac` delegates to `fac`. -/
theorem resolver_wiring (fac : F) (r : Resolver F) :
    (NewResolver fac).services = fac
    ∧ (r.Mutation.Resolver = r ∧ r.Edit.Resolver = r ∧ r.EditComment.Resolver = r
      ∧ r.EditVote.Resolver = r ∧ r.Performer.Resolver = r ∧ r.PerformerEdit.Resolver = r
      ∧ r.StudioEdit.Resolver = r ∧ r.TagEdit.Resolver = r ∧ r.SceneEdit.Resolver = r
      ∧ r.Tag.Resolver = r ∧ r.TagCategory.Resolver = r ∧ r.Image.Resolver = r
      ∧ r.Studio.Resolver = r ∧ r.Scene.Resolver = r ∧ r.Site.Resolver = r
      ∧ r.URL.Resolver = r ∧ r.User.Resolver = r ∧ r.Query.Resolver = r
      ∧ r.QueryPerformersResultType.Resolver = r ∧ r.QueryScenesResultType.Resolver = r
      ∧ r.QueryEditsResultType.Resolver = r ∧ r.Draft.Resolver = r
      ∧ r.PerformerDraft.Resolver = r ∧ r.SceneDraft.Resolver = r
      ∧ r.QueryExistingSceneResult.Resolver = r ∧ r.QueryExistingPerformerResult.Resolver = r
      ∧ r.QueryNotificationsResult.Resolver = r ∧ r.Notification.Resolver = r)
    ∧ ((NewResolver fac).Mutation.Resolver.services = fac
      ∧ (NewResolver fac).Edit.Resolver.services = fac
      ∧ (NewResolver fac).EditComment.Resolver.services = fac
      ∧ (NewResolver fac).EditVote.Resolver.services = fac
      ∧ (NewResolver fac).Performer.Resolver.services = fac
      ∧ (NewResolver fac).PerformerEdit.Resolver.services = fac
      ∧ (NewResolver fac).StudioEdit.Resolver.services = fac
      ∧ (NewResolver fac).TagEdit.Resolver.services = fac
      ∧ (NewResolver fac).SceneEdit.Resolver.services = fac
      ∧ (NewResolver fac).Tag.Resolver.services = fac
      ∧ (NewResolver fac).TagCategory.Resolver.services = fac
      ∧ (NewResolver fac).Image.Resolver.services = fac
      ∧ (NewResolver fac).Studio.Resolver.services = fac
      ∧ (NewResolver fac).Scene.Resolver.services = fac
      ∧ (NewResolver fac).Site.Resolver.services = fac
      ∧ (NewResolver fac).URL.Resolver.services = fac
      ∧ (NewResolver fac).User.Resolver.services = fac
      ∧ (NewResolver fac).Query.Resolver.services = fac
      ∧ (NewResolver fac).QueryPerformersResultType.Resolver.services = fac
      ∧ (NewResolver fac).QueryScenesResultType.Resolver.services = fac
      ∧ (NewResolver fac).QueryEditsResultType.Resolver.services = fac
      ∧ (NewResolver fac).Draft.Resolver.services = fac
      ∧ (NewResolver fac).PerformerDraft.Resolver.services = fac
      ∧ (NewResolver fac).SceneDraft.Resolver.services = fac
      ∧ (NewResolver fac).QueryExistingSceneResult.Resolver.services = fac
      ∧ (NewResolver fac).QueryExistingPerformerResult.Resolver.services = fac
      ∧ (NewResolver fac).QueryNotificationsResult.Resolver.services = fac
      ∧ (NewResolver fac).Notification.Resolver.services = fac) := by
  refine ⟨rfl, ?_, ?_⟩ <;> repeat' constructor

/-- Claim C8: the favicon lookup never makes `GetConfig` fail. For every configuration
`GetConfig` returns a non-nil result and a nil error; `getFaviconPathString` returns without
panicking; and `FaviconPath` is the configured path when the lookup returns no error and a
non-nil path, and the empty string when it returns an error or a nil path. -/
theorem GetConfig_favicon (cfg : config.Accessors σ) (r : queryResolver F) (s : σ) :
    ∃ c : models.StashBoxConfig,
      queryResolver.GetConfig cfg r s = Except.ok ((some c, none), s)
      ∧ getFaviconPathString cfg s = Except.ok (c.FaviconPath, s)
      ∧ c.FaviconPath =
          (if (cfg.GetFaviconPath s).2 = none then ((cfg.GetFaviconPath s).1).getD "" else "") := by
  refine ⟨_, GetConfig_run cfg r s, getFaviconPathString_run cfg s, ?_⟩
  rcases h : cfg.GetFaviconPath s with ⟨_ | p, _ | e⟩ <;> simp

/-- Claim C10: `getProfilerPortInt` always returns, without dereferencing a nil port: it yields
`0` when no profiler port is configured and the configured port otherwise. The `ProfilerPort`
field of `GetConfig` is that value, and it is `0` exactly when the port is unset or configured
as `0`. -/
theorem getProfilerPortInt_total (cfg : config.Accessors σ) (r : queryResolver F) (s : σ) :
    getProfilerPortInt cfg s = Except.ok ((cfg.GetProfilerPort s).getD 0, s)
    ∧ ∃ c : models.StashBoxConfig,
      queryResolver.GetConfig cfg r s = Except.ok ((some c, none), s)
      ∧ c.ProfilerPort = (cfg.GetProfilerPort s).getD 0
      ∧ (c.ProfilerPort = 0 ↔
          cfg.GetProfilerPort s = none ∨ cfg.GetProfilerPort s = some 0) := by
  refine ⟨getProfilerPortInt_run cfg s, _, GetConfig_run cfg r s, rfl, ?_⟩
  cases h : cfg.GetProfilerPort s <;> simp

end api

namespace engine

/-- Claim C3: the tally is the net count. For every list of votes the score is the number of
accept votes minus the number of reject votes, the two counts are those numbers, the result
does not depend on who the voters are, and the empty vote set has score 0 and is eligible
neither for promotion nor for application whatever the thresholds. -/
theorem tally_net_count (votes : List Vote) (rename : Nat → Nat) (cfg : Thresholds) :
    (tally votes).score =
        (votes.countP (fun v => v.value = VoteValue.accept) : Int)
          - (votes.countP (fun v => v.value = VoteValue.reject) : Int)
      ∧ (tally votes).accept_count = votes.countP (fun v => v.value = VoteValue.accept)
      ∧ (tally votes).reject_count = votes.countP (fun v => v.value = VoteValue.reject)
      ∧ (tally votes).score = ((tally votes).accept_count : Int) - ((tally votes).reject_count : Int)
      ∧ tally (votes.map (fun v => { v with voter := rename v.voter })) = tally votes
      ∧ (tally []).score = 0
      ∧ eligibleForPromotion cfg [] = false
      ∧ eligibleForApplication cfg [] = false := by
  refine ⟨by rw [tally_eq], by rw [tally_eq], by rw [tally_eq], by rw [tally_eq], ?_, by decide,
    rfl, rfl⟩
  rw [tally_eq, tally_eq]
  simp [List.countP_map, Function.comp_def]

/-- Claim C4: a pending edit is accepted only when it is due and has the score. If a tick (or
its evaluation step) turns a pending edit into an accepted or applied one, then the tally score
of its votes is at least `VoteApplicationThreshold` and the time since its creation is at least
`MinDestructiveVotingPeriod` for a destroy or merge edit and `VotingPeriod` otherwise. A pending
destroy or merge edit created at time `T` is left untouched, hence neither accepted nor applied,
by every run of ticks that each come before `T + MinDestructiveVotingPeriod` (with the value
current at that tick), whatever the votes. -/
theorem accepted_only_when_eligible_and_due (env : Env) (cfg : Thresholds) (e : Edit) (now : Int)
    (votes : List Vote) (ticks : List (Thresholds × Int × List Vote))
    (hp : e.status = Status.pending) :
    (((resolveStep cfg now (votesFor votes e.id) e).status = Status.accepted
        ∨ (tickEdit env cfg now votes e).status = Status.accepted
        ∨ (tickEdit env cfg now votes e).status = Status.applied) →
      cfg.VoteApplicationThreshold ≤ (tally (votesFor votes e.id)).score
        ∧ (if destructive e.operation then cfg.MinDestructiveVotingPeriod else cfg.VotingPeriod)
            ≤ now - e.createdAt)
    ∧ (destructive e.operation = true →
        (∀ t ∈ ticks, t.2.1 < e.createdAt + t.1.MinDestructiveVotingPeriod) →
        schedule env ticks e = e
          ∧ (schedule env ticks e).status ≠ Status.accepted
          ∧ (schedule env ticks e).status ≠ Status.applied) := by
  constructor
  · intro h
    have hacc : (resolveStep cfg now (votesFor votes e.id) e).status = Status.accepted := by
      rcases h with h | h | h
      · exact h
      · exact tickEdit_accepted_or_applied hp (Or.inl h)
      · exact tickEdit_accepted_or_applied hp (Or.inr h)
    obtain ⟨-, h1, h2⟩ := resolveStep_accepted hp hacc
    exact ⟨h1, h2⟩
  · intro hd ht
    have hs := @schedule_before_floor env e hp hd ticks ht
    rw [hs, hp]
    exact ⟨rfl, by decide, by decide⟩

/-- Witness for claim C4: the destroy edit of the example, with four accepts and one reject, is
applied by a tick at hour 168, where the score 3 reaches the threshold 3 and the week has
passed, and is left pending by the ticks at hours 0, 100 and 167. -/
theorem accepted_only_when_eligible_and_due_witness :
    Example.destroyEdit.status = Status.pending
    ∧ (tickEdit Example.okEnv Example.thresholds 168 Example.votes Example.destroyEdit).status
        = Status.applied
    ∧ Example.thresholds.VoteApplicationThreshold
        ≤ (tally (votesFor Example.votes Example.destroyEdit.id)).score
    ∧ (168 : Int) ≤ 168 - Example.destroyEdit.createdAt
    ∧ schedule Example.okEnv
        [(Example.thresholds, 0, Example.votes), (Example.thresholds, 100, Example.votes),
         (Example.thresholds, 167, Example.votes)] Example.destroyEdit
        = Example.destroyEdit := by
  have h := accepted_only_when_eligible_and_due Example.okEnv Example.thresholds
    Example.destroyEdit 168 Example.votes
    [(Example.thresholds, 0, Example.votes), (Example.thresholds, 100, Example.votes),
     (Example.thresholds, 167, Example.votes)] rfl
  have happlied : (tickEdit Example.okEnv Example.thresholds 168 Example.votes
      Example.destroyEdit).status = Status.applied := by decide
  exact ⟨rfl, happlied, (h.1 (Or.inr (Or.inr happlied))).1, (h.1 (Or.inr (Or.inr happlied))).2,
    (h.2 rfl (by decide)).1⟩

end engine
